import Mathlib

/-!
Shallow embedding of `pkg/connection/conn.go` from the kaf repository.

The file models the connection manager (`ConnManager`), its operations
(`GetClient`, `GetConfig`, `GetAdminClient`, `GetAvailableOffsets`, `Connect`)
and the configuration translation `toSaramaConfig`.  External effects
(config loading via `config.ReadConfig`, file reads via `ioutil.ReadFile`,
`sarama.ParseKafkaVersion`, `tls.X509KeyPair`, `sarama.NewClient`,
`sarama.NewClusterAdminFromClient`) are abstracted into an environment
record `Env` of pure functions; the Go code under verification is embedded
faithfully on top of it, including its error wrapping and the nil-pointer
dereference reachable in `toSaramaConfig`.
-/

namespace KafConn

/-- A Go `error` value.  `lib` is an error produced by an external library or
I/O call; `errorf pre e` is `fmt.Errorf("<pre>%v", e)`, i.e. the error `e`
wrapped with a fixed message prefixed to it; `msg` is a fresh error built from
a plain message (`fmt.Errorf` with no wrapped error). -/
inductive GoError where
  | lib (text : String)
  | errorf (pre : String) (wrapped : GoError)
  | msg (text : String)
deriving DecidableEq, Repr

/-- A Kafka protocol version (`sarama.KafkaVersion`).  `V0_8_2_0` is the
library default set by `sarama.NewConfig`, `V1_1_0_0` is the constant the Go
code assigns, and `parsed s` stands for any other version value produced by
`sarama.ParseKafkaVersion`. -/
inductive KafkaVersion where
  | V0_8_2_0
  | V1_1_0_0
  | parsed (s : String)
deriving DecidableEq, Repr

/-- The hash generator chosen for the SCRAM client generator function. -/
inductive HashGeneratorFcn where
  | SHA512
  | SHA256
deriving DecidableEq, Repr

/-- A parsed client certificate/key pair (`tls.Certificate`). -/
structure TLSCert where
  certPEM : String
  keyPEM : String
deriving DecidableEq, Repr

/-- The fields of `tls.Config` that the Go code writes: `InsecureSkipVerify`,
`RootCAs` (modelled as the PEM bytes appended to the pool, `none` for a nil
pool) and `Certificates`.  `BuildNameToCertificate` only populates an internal
lookup map and is not observable here. -/
structure TLSClientConfig where
  insecureSkipVerify : Bool
  rootCAs : Option String
  certificates : List TLSCert
deriving DecidableEq, Repr

/-- The fields of `sarama.Config` that the Go code reads or writes. -/
structure SaramaConfig where
  version : KafkaVersion
  producerReturnSuccesses : Bool
  metadataFull : Bool
  metadataRefreshFrequencyMinutes : Nat
  netSASLEnable : Bool
  netSASLUser : String
  netSASLPassword : String
  netSASLMechanism : String
  netSASLSCRAMClientGeneratorFunc : Option HashGeneratorFcn
  netTLSEnable : Bool
  netTLSConfig : Option TLSClientConfig
deriving DecidableEq, Repr

/-- Defaults of `sarama.NewConfig()` restricted to the modelled fields: SASL and TLS are
disabled, the version is the library default, the SASL mechanism is the zero
string and no SCRAM generator or TLS config is set. -/
def newConfig : SaramaConfig where
  version := KafkaVersion.V0_8_2_0
  producerReturnSuccesses := false
  metadataFull := true
  metadataRefreshFrequencyMinutes := 10
  netSASLEnable := false
  netSASLUser := ""
  netSASLPassword := ""
  netSASLMechanism := ""
  netSASLSCRAMClientGeneratorFunc := none
  netTLSEnable := false
  netTLSConfig := none

/-- The `SASL` section of a cluster record (`config.SASL`), as accessed by
conn.go: `Username`, `Password`, `Mechanism`. -/
structure SASL where
  username : String
  password : String
  mechanism : String
deriving DecidableEq, Repr

/-- The `TLS` section of a cluster record (`config.TLS`), as accessed by
conn.go: `Cafile`, `Clientfile`, `Clientkeyfile`, `Insecure`. -/
structure TLS where
  cafile : String
  clientfile : String
  clientkeyfile : String
  insecure : Bool
deriving DecidableEq, Repr

/-- A cluster record (`config.Cluster`), with the fields conn.go accesses:
`Name`, `Brokers`, `Version`, `SecurityProtocol`, and the optional (nil-able
pointer) sections `TLS` and `SASL`. -/
structure Cluster where
  name : String
  brokers : List String
  version : String
  securityProtocol : String
  tls : Option TLS
  sasl : Option SASL
deriving DecidableEq, Repr

/-- The loaded configuration (`config.Config`), as used by conn.go: the list
of clusters, plus the cluster that `ActiveCluster()` returns, kept abstract
as a field (its selection logic lives in `pkg/config`, outside this module). -/
structure Config where
  clusters : List Cluster
  active : Cluster
deriving DecidableEq, Repr

/-- An opaque `sarama.Client` handle. -/
abbrev Client := Nat

/-- An opaque `sarama.ClusterAdmin` handle. -/
abbrev Admin := Nat

/-- An opaque `*sarama.OffsetResponse` value. -/
abbrev OffsetResponse := Nat

/-- The external world a call runs against: results of `config.ReadConfig("")`,
`sarama.ParseKafkaVersion`, `ioutil.ReadFile`, `tls.X509KeyPair`,
`sarama.NewClient` and `sarama.NewClusterAdminFromClient`. -/
structure Env where
  readConfig : Except GoError Config
  parseKafkaVersion : String → Except GoError KafkaVersion
  readFile : String → Except GoError String
  x509KeyPair : String → String → Except GoError TLSCert
  newClient : List String → SaramaConfig → Except GoError Client
  newClusterAdminFromClient : Client → Except GoError Admin

/-- Result of a Go call that may return a value, return an error, or crash
with a nil-pointer dereference. -/
inductive GoResult (α : Type) where
  | ok (val : α)
  | err (e : GoError)
  | nilPanic
deriving DecidableEq, Repr

/-- Embed an `Except` result (a Go call that cannot panic) into `GoResult`. -/
def ofExcept : Except GoError α → GoResult α
  | .ok a => .ok a
  | .error e => .err e

/-- Returns `true` iff the result is an `err`. -/
def GoResult.isErr : GoResult α → Bool
  | .err _ => true
  | _ => false

/-- Returns `true` iff the result is an `ok`. -/
def GoResult.isOk : GoResult α → Bool
  | .ok _ => true
  | _ => false

/-- Returns `true` iff the result is the nil-dereference panic. -/
def GoResult.isNilPanic : GoResult α → Bool
  | .nilPanic => true
  | _ => false

/-- Returns `true` iff an `Except` holds an error. -/
def exceptIsError : Except GoError α → Bool
  | .error _ => true
  | .ok _ => false

/-- Lookup in the Go map `map[string]sarama.Client`, modelled as an
association list. -/
def mapLookup (m : List (String × Client)) (k : String) : Option Client :=
  match m with
  | [] => none
  | (k', v) :: rest => if k' = k then some v else mapLookup rest k

/-- Go map assignment `m[k] = v`: replace the binding if present, otherwise
add it. -/
def mapInsert (m : List (String × Client)) (k : String) (v : Client) :
    List (String × Client) :=
  match m with
  | [] => [(k, v)]
  | (k', v') :: rest =>
      if k' = k then (k, v) :: rest else (k', v') :: mapInsert rest k v

/-- The `ConnManager` struct: the connection cache `conns`. -/
structure ConnManager where
  conns : List (String × Client)
deriving DecidableEq, Repr

/-- The constructor `NewConnManager()`: an empty cache. -/
def NewConnManager : ConnManager := { conns := [] }

/-- The cluster-lookup loop of `GetClient`, `GetConfig` and `GetAdminClient`,
with the loop variable `cl` made explicit: `acc` is overwritten by every
cluster whose name matches, so the last match wins. -/
def findClusterFrom (acc : Option Cluster) (cs : List Cluster)
    (cluster : String) : Option Cluster :=
  match cs with
  | [] => acc
  | cx :: rest =>
      findClusterFrom (if cx.name = cluster then some cx else acc) rest cluster

/-- The cluster-lookup loop, started from `var cl *config.Cluster = nil`. -/
def findCluster (cs : List Cluster) (cluster : String) : Option Cluster :=
  findClusterFrom none cs cluster

/-- Name resolution as performed by `GetConfig` and `GetAdminClient`: an empty
name selects `ActiveCluster()`; otherwise the loop runs, and if it found
nothing the code falls back to `ActiveCluster()`. -/
def resolveCluster (configTotal : Config) (cluster : String) : Cluster :=
  if cluster = "" then configTotal.active
  else
    match findCluster configTotal.clusters cluster with
    | some cl => cl
    | none => configTotal.active

/-- The `cluster.TLS.Cafile` block of the first (non-SASL_SSL) TLS branch of
`toSaramaConfig`: read the CA file if a path is set, wrapping a read failure
as `Unable to read Cafile :...`, and append the bytes to the root pool. -/
def loadRootCAsWrapped (env : Env) (t : TLS) (tc : TLSClientConfig) :
    Except GoError TLSClientConfig :=
  if t.cafile ≠ "" then
    match env.readFile t.cafile with
    | .error e => .error (GoError.errorf "Unable to read Cafile :" e)
    | .ok caCert => .ok { tc with rootCAs := some caCert }
  else .ok tc

/-- The client-certificate block of the first TLS branch of `toSaramaConfig`:
only when BOTH `Clientfile` and `Clientkeyfile` are set, read both files and
build the key pair, wrapping each failure with its fixed message. -/
def loadClientCert (env : Env) (t : TLS) (tc : TLSClientConfig) :
    Except GoError TLSClientConfig :=
  if t.clientfile ≠ "" ∧ t.clientkeyfile ≠ "" then
    match env.readFile t.clientfile with
    | .error e => .error (GoError.errorf "Unable to read Clientfile :" e)
    | .ok clientCert =>
      match env.readFile t.clientkeyfile with
      | .error e => .error (GoError.errorf "Unable to read Clientkeyfile :" e)
      | .ok clientKey =>
        match env.x509KeyPair clientCert clientKey with
        | .error e => .error (GoError.errorf "Unable to creatre KeyPair: " e)
        | .ok cert => .ok { tc with certificates := [cert] }
  else .ok tc

/-- The first TLS branch of `toSaramaConfig` (taken when `cluster.TLS != nil`
and the security protocol is not `"SASL_SSL"`): enable TLS, build the
`tls.Config` from the insecure flag, CA file and client certificate pair. -/
def tlsDefaultBranch (env : Env) (t : TLS) (c : SaramaConfig) :
    Except GoError SaramaConfig :=
  let tc : TLSClientConfig :=
    { insecureSkipVerify := t.insecure, rootCAs := none, certificates := [] }
  match loadRootCAsWrapped env t tc with
  | .error e => .error e
  | .ok tc1 =>
    match loadClientCert env t tc1 with
    | .error e => .error e
    | .ok tc2 =>
      .ok { c with netTLSEnable := true, netTLSConfig := some tc2 }

/-- The `tls.Config` part of the `"SASL_SSL"` branch of `toSaramaConfig`:
when a TLS section is present, build the config from its insecure flag and CA
file (a read failure is returned verbatim); when it is nil, use
`InsecureSkipVerify: false`. -/
def saslSslTlsPart (env : Env) (cluster : Cluster) (c1 : SaramaConfig) :
    Except GoError SaramaConfig :=
  match cluster.tls with
  | some t =>
      let tc : TLSClientConfig :=
        { insecureSkipVerify := t.insecure, rootCAs := none,
          certificates := [] }
      if t.cafile ≠ "" then
        match env.readFile t.cafile with
        | .error e => Except.error e
        | .ok caCert =>
            Except.ok { c1 with netTLSConfig := some { tc with rootCAs := some caCert } }
      else Except.ok { c1 with netTLSConfig := some tc }
  | none =>
      let tcDefault : TLSClientConfig :=
        { insecureSkipVerify := false, rootCAs := none, certificates := [] }
      Except.ok { c1 with netTLSConfig := some tcDefault }

/-- The `"SASL_SSL"` branch of `toSaramaConfig`: enable TLS; build the
`tls.Config` via `saslSslTlsPart`; then read `cluster.SASL.Mechanism` — a
nil-pointer dereference when the SASL section is nil — and install the SCRAM
generator and mechanism for the SCRAM variants. -/
def saslSslBranch (env : Env) (cluster : Cluster) (c : SaramaConfig) :
    GoResult SaramaConfig :=
  let c1 := { c with netTLSEnable := true }
  match saslSslTlsPart env cluster c1 with
  | .error e => .err e
  | .ok c2 =>
    match cluster.sasl with
    | none => .nilPanic
    | some s =>
      if s.mechanism = "SCRAM-SHA-512" then
        .ok { c2 with
              netSASLSCRAMClientGeneratorFunc := some HashGeneratorFcn.SHA512,
              netSASLMechanism := "SCRAM-SHA-512" }
      else if s.mechanism = "SCRAM-SHA-256" then
        .ok { c2 with
              netSASLSCRAMClientGeneratorFunc := some HashGeneratorFcn.SHA256,
              netSASLMechanism := "SCRAM-SHA-256" }
      else .ok c2

/-- The `cluster.Version != ""` block of `toSaramaConfig`: parse the version
string when non-empty (wrapping a parse failure as
`Unable to parse Kafka version: ...`) and overwrite `saramaConfig.Version`. -/
def versionStep (env : Env) (cluster : Cluster) (c0 : SaramaConfig) :
    Except GoError SaramaConfig :=
  if cluster.version ≠ "" then
    match env.parseKafkaVersion cluster.version with
    | .error e =>
        Except.error (GoError.errorf "Unable to parse Kafka version: " e)
    | .ok parsedVersion => Except.ok { c0 with version := parsedVersion }
  else Except.ok c0

/-- The `cluster.SASL != nil` block of `toSaramaConfig`: enable SASL and copy
the username and password when the SASL section is present. -/
def saslStep (cluster : Cluster) (c1 : SaramaConfig) : SaramaConfig :=
  match cluster.sasl with
  | some s =>
      { c1 with netSASLEnable := true, netSASLUser := s.username,
                netSASLPassword := s.password }
  | none => c1

/-- The `cluster.TLS != nil && cluster.SecurityProtocol != "SASL_SSL"` block
of `toSaramaConfig`: run the default TLS branch when it applies. -/
def tlsStep (env : Env) (cluster : Cluster) (c2 : SaramaConfig) :
    Except GoError SaramaConfig :=
  match cluster.tls with
  | some t =>
      if cluster.securityProtocol ≠ "SASL_SSL" then tlsDefaultBranch env t c2
      else Except.ok c2
  | none => Except.ok c2

/-- The configuration after the first four assignments of `toSaramaConfig`:
`sarama.NewConfig()` with the version set to `V1_1_0_0`, producer success
returns enabled, full metadata and a one-minute refresh frequency. -/
def initialSaramaConfig : SaramaConfig :=
  { newConfig with
    version := KafkaVersion.V1_1_0_0
    producerReturnSuccesses := true
    metadataFull := true
    metadataRefreshFrequencyMinutes := 1 }

/-- The function `toSaramaConfig`: start from the initial configuration, then run the
version, SASL, TLS and SASL_SSL blocks in the order of the Go code. -/
def toSaramaConfig (env : Env) (cluster : Cluster) : GoResult SaramaConfig :=
  match versionStep env cluster initialSaramaConfig with
  | .error e => .err e
  | .ok c1 =>
    let c2 := saslStep cluster c1
    match tlsStep env cluster c2 with
    | .error e => .err e
    | .ok c3 =>
      if cluster.securityProtocol = "SASL_SSL" then saslSslBranch env cluster c3
      else .ok c3

/-- The tail of `GetClient` after the cluster record has been resolved:
translate the configuration, open the client, store it in the cache under the
requested name, and return it. -/
def connectCluster (env : Env) (c : ConnManager) (cluster : String)
    (cl : Cluster) : GoResult Client × ConnManager :=
  match toSaramaConfig env cl with
  | .nilPanic => (.nilPanic, c)
  | .err e => (.err e, c)
  | .ok cfg =>
    match env.newClient cl.brokers cfg with
    | .error e => (.err e, c)
    | .ok client =>
        (.ok client, { c with conns := mapInsert c.conns cluster client })

/-- The method `GetClient`: return the cached client if present; otherwise load the
configuration, look the name up (last match wins, a miss is the
`Cluster "<name>" not found.` error), and connect. -/
def GetClient (env : Env) (c : ConnManager) (cluster : String) :
    GoResult Client × ConnManager :=
  match mapLookup c.conns cluster with
  | some cl => (.ok cl, c)
  | none =>
    match env.readConfig with
    | .error e => (.err e, c)
    | .ok configTotal =>
      match findCluster configTotal.clusters cluster with
      | none =>
          (.err (GoError.msg ("Cluster \"" ++ cluster ++ "\" not found.")), c)
      | some cl => connectCluster env c cluster cl

/-- The method `GetConfig`: load the configuration, resolve the name with fallback to the
active cluster, and translate it.  The receiver is not used by the Go code. -/
def GetConfig (env : Env) (cluster : String) : GoResult SaramaConfig :=
  match env.readConfig with
  | .error e => .err e
  | .ok configTotal => toSaramaConfig env (resolveCluster configTotal cluster)

/-- The tail of `GetAdminClient` after the cluster record has been resolved:
translate the configuration, open a client, store it in the cache under the
requested name, and build the admin handle from it. -/
def adminFromCluster (env : Env) (c : ConnManager) (cluster : String)
    (cl : Cluster) : GoResult Admin × ConnManager :=
  match toSaramaConfig env cl with
  | .nilPanic => (.nilPanic, c)
  | .err e => (.err e, c)
  | .ok cfg =>
    match env.newClient cl.brokers cfg with
    | .error e => (.err e, c)
    | .ok client =>
        (ofExcept (env.newClusterAdminFromClient client),
         { c with conns := mapInsert c.conns cluster client })

/-- The method `GetAdminClient`: wrap the cached client in an admin handle if present;
otherwise load the configuration, resolve the name with fallback to the active
cluster, connect, cache, and build the admin handle. -/
def GetAdminClient (env : Env) (c : ConnManager) (cluster : String) :
    GoResult Admin × ConnManager :=
  match mapLookup c.conns cluster with
  | some cl => (ofExcept (env.newClusterAdminFromClient cl), c)
  | none =>
    match env.readConfig with
    | .error e => (.err e, c)
    | .ok configTotal =>
        adminFromCluster env c cluster (resolveCluster configTotal cluster)

/-- The method `Connect`: call `GetAdminClient` and keep only the error. -/
def Connect (env : Env) (c : ConnManager) (cluster : String) :
    GoResult Unit × ConnManager :=
  match GetAdminClient env c cluster with
  | (.ok _, c') => (.ok (), c')
  | (.err e, c') => (.err e, c')
  | (.nilPanic, c') => (.nilPanic, c')

/-- Observable broker interactions performed by `GetAvailableOffsets`:
`rpcAttempt n` is the `n`-th `broker.GetAvailableOffsets(req)` call,
`close` is `broker.Close()`, `openBroker cfg` is `broker.Open(cfg)` (whose
error the Go code ignores). -/
inductive BrokerEvent where
  | rpcAttempt (n : Nat)
  | close
  | openBroker (cfg : SaramaConfig)
deriving DecidableEq, Repr

/-- The method `GetAvailableOffsets`: issue the RPC; on success return its response.  On
failure close the broker, re-resolve the configuration with `GetConfig` (its
failure is returned with no further attempt), reopen the broker and return
the result of the second attempt.  Here `attempt n` is the result the broker gives to
the `n`-th RPC call; the event list records what was done in order. -/
def GetAvailableOffsets (env : Env) (cluster : String)
    (attempt : Nat → Except GoError OffsetResponse) :
    GoResult OffsetResponse × List BrokerEvent :=
  match attempt 0 with
  | .ok resp => (.ok resp, [BrokerEvent.rpcAttempt 0])
  | .error _ =>
    match GetConfig env cluster with
    | .err e => (.err e, [BrokerEvent.rpcAttempt 0, BrokerEvent.close])
    | .nilPanic => (.nilPanic, [BrokerEvent.rpcAttempt 0, BrokerEvent.close])
    | .ok cfg =>
        (ofExcept (attempt 1),
         [BrokerEvent.rpcAttempt 0, BrokerEvent.close,
          BrokerEvent.openBroker cfg, BrokerEvent.rpcAttempt 1])

/-! ### Spec-side outcome conditions

The following Boolean predicates restate, in the vocabulary of the spec, when
`toSaramaConfig` fails.  `claimedErrCond` follows the original wording of the claim
(any configured certificate path that cannot be read is an error);
`versionParseFails`, `clientPairFails`, `defaultTLSFails`, `saslSslCaFails`,
`amendedErrCond` and `amendedPanicCond` state the condition the code actually
implements. -/

/-- The version string is non-empty and fails to parse. -/
def versionParseFails (env : Env) (cl : Cluster) : Bool :=
  (cl.version != "") && exceptIsError (env.parseKafkaVersion cl.version)

/-- Both client-certificate files are configured and reading either file or
building the key pair fails. -/
def clientPairFails (env : Env) (t : TLS) : Bool :=
  (t.clientfile != "") && (t.clientkeyfile != "") &&
  (match env.readFile t.clientfile with
   | .error _ => true
   | .ok clientCert =>
     match env.readFile t.clientkeyfile with
     | .error _ => true
     | .ok clientKey => exceptIsError (env.x509KeyPair clientCert clientKey))

/-- The default (non-SASL_SSL) TLS branch fails: the CA file is configured
and unreadable, or the client pair fails. -/
def defaultTLSFails (env : Env) (t : TLS) : Bool :=
  ((t.cafile != "") && exceptIsError (env.readFile t.cafile)) ||
  clientPairFails env t

/-- The CA-file read of the SASL_SSL branch fails. -/
def saslSslCaFails (env : Env) (cl : Cluster) : Bool :=
  match cl.tls with
  | some t => (t.cafile != "") && exceptIsError (env.readFile t.cafile)
  | none => false

/-- The condition under which `toSaramaConfig` returns an error, per the
amended claim: a version-parse failure; or, when a TLS section is present and
the protocol is not `"SASL_SSL"`, a default-TLS-branch failure; or, when the
protocol is `"SASL_SSL"`, a CA-file read failure. -/
def amendedErrCond (env : Env) (cl : Cluster) : Bool :=
  versionParseFails env cl ||
  (match cl.tls with
   | some t => (cl.securityProtocol != "SASL_SSL") && defaultTLSFails env t
   | none => false) ||
  ((cl.securityProtocol == "SASL_SSL") && saslSslCaFails env cl)

/-- The condition under which `toSaramaConfig` crashes on a nil dereference,
per the amended claim: the earlier steps succeed, the protocol is
`"SASL_SSL"`, and the SASL section is absent. -/
def amendedPanicCond (env : Env) (cl : Cluster) : Bool :=
  (!versionParseFails env cl) && (cl.securityProtocol == "SASL_SSL") &&
  (!saslSslCaFails env cl) && cl.sasl.isNone

/-- The error condition as the claim originally words it: the version string
fails to parse, or a configured certificate-authority, client-certificate or
client-key file path cannot be read, or the client key pair is invalid. -/
def claimedErrCond (env : Env) (cl : Cluster) : Bool :=
  versionParseFails env cl ||
  (match cl.tls with
   | some t =>
       ((t.cafile != "") && exceptIsError (env.readFile t.cafile)) ||
       ((t.clientfile != "") && exceptIsError (env.readFile t.clientfile)) ||
       ((t.clientkeyfile != "") && exceptIsError (env.readFile t.clientkeyfile)) ||
       ((t.clientfile != "") && (t.clientkeyfile != "") &&
         (match env.readFile t.clientfile, env.readFile t.clientkeyfile with
          | .ok clientCert, .ok clientKey =>
              exceptIsError (env.x509KeyPair clientCert clientKey)
          | _, _ => false))
   | none => false)

/-- Holds when `e` is an error value produced by one of the fallible environment
calls (version parse, file read, key-pair construction). -/
def envProducedError (env : Env) (e : GoError) : Prop :=
  (∃ s, env.parseKafkaVersion s = Except.error e) ∨
  (∃ p, env.readFile p = Except.error e) ∨
  (∃ a b, env.x509KeyPair a b = Except.error e)

/-! ### Concrete fixtures used by witnesses and counterexamples -/

/-- An environment whose fallible calls all fail with fixed library errors,
except that client and admin construction succeed. -/
def envTrivial : Env where
  readConfig := Except.error (GoError.lib "no config")
  parseKafkaVersion := fun _ => Except.error (GoError.lib "parse fail")
  readFile := fun _ => Except.error (GoError.lib "read fail")
  x509KeyPair := fun _ _ => Except.error (GoError.lib "keypair fail")
  newClient := fun _ _ => Except.ok 7
  newClusterAdminFromClient := fun cl => Except.ok (cl + 100)

/-- A plain cluster record with a SASL section and nothing else. -/
def clusterPlainSasl : Cluster where
  name := "prod"
  brokers := ["broker1:9092"]
  version := ""
  securityProtocol := ""
  tls := none
  sasl := some { username := "u", password := "p", mechanism := "" }

/-- The configuration `toSaramaConfig` produces for `clusterPlainSasl`. -/
def cfgPlainSasl : SaramaConfig :=
  { newConfig with
    version := KafkaVersion.V1_1_0_0
    producerReturnSuccesses := true
    metadataFull := true
    metadataRefreshFrequencyMinutes := 1
    netSASLEnable := true
    netSASLUser := "u"
    netSASLPassword := "p" }

/-- A cluster record with a version string that does not parse. -/
def clusterVersionBad : Cluster where
  name := "prod"
  brokers := []
  version := "bad"
  securityProtocol := ""
  tls := none
  sasl := none

/-- A cluster record whose TLS section sets only `Clientfile` (no key file):
the claim calls an unreadable configured path an error, but the code never
reads the file. -/
def clusterClientfileOnly : Cluster where
  name := "prod"
  brokers := []
  version := ""
  securityProtocol := ""
  tls := some { cafile := "", clientfile := "client.pem",
                clientkeyfile := "", insecure := false }
  sasl := none

/-- A cluster record with security protocol `"SASL_SSL"` but no SASL
section. -/
def clusterSaslSslNoSasl : Cluster where
  name := "prod"
  brokers := []
  version := ""
  securityProtocol := "SASL_SSL"
  tls := none
  sasl := none

/-- A loaded configuration with the single cluster `clusterPlainSasl`, which
is also the active cluster. -/
def configW : Config where
  clusters := [clusterPlainSasl]
  active := clusterPlainSasl

/-- An environment in which configuration loading and connecting succeed. -/
def envConnect : Env :=
  { envTrivial with readConfig := Except.ok configW }

/-- Like `envConnect`, but building an admin handle from a client fails. -/
def envAdminFail : Env :=
  { envConnect with
    newClusterAdminFromClient :=
      fun _ => Except.error (GoError.lib "controller unavailable") }

/-- The cache state after connecting to `"prod"` in `envConnect`. -/
def cmProd : ConnManager := { conns := [("prod", 7)] }

/-- A broker whose offset RPC always succeeds. -/
def attemptOk : Nat → Except GoError OffsetResponse :=
  fun _ => Except.ok 42

/-- A broker whose offset RPC always fails. -/
def attemptFail : Nat → Except GoError OffsetResponse :=
  fun _ => Except.error (GoError.lib "rpc failed")

/-- The number of RPC attempts recorded in an event list. -/
def countRpcAttempts : List BrokerEvent → Nat
  | [] => 0
  | BrokerEvent.rpcAttempt _ :: rest => countRpcAttempts rest + 1
  | _ :: rest => countRpcAttempts rest

/-! ### Basic lemmas about the cache map and the cluster-lookup loop -/

theorem mapLookup_mapInsert (m : List (String × Client)) (k k' : String)
    (v : Client) :
    mapLookup (mapInsert m k v) k' = if k = k' then some v else mapLookup m k' := by
  induction m with
  | nil => simp [mapInsert, mapLookup]
  | cons hd tl ih =>
      obtain ⟨k0, v0⟩ := hd
      by_cases h0 : k0 = k
      · subst h0
        simp only [mapInsert, if_pos rfl, mapLookup]
        split_ifs <;> simp_all
      · simp only [mapInsert, if_neg h0, mapLookup]
        rw [ih]
        split_ifs <;> simp_all

theorem findClusterFrom_no_match (acc : Option Cluster) (cs : List Cluster)
    (cluster : String) (h : ∀ cx ∈ cs, cx.name ≠ cluster) :
    findClusterFrom acc cs cluster = acc := by
  induction cs generalizing acc with
  | nil => rfl
  | cons cx rest ih =>
      have hx : cx.name ≠ cluster := h cx (List.mem_cons_self _ _)
      simp only [findClusterFrom, if_neg hx]
      exact ih acc (fun cy hy => h cy (List.mem_cons_of_mem _ hy))

theorem findClusterFrom_append (acc : Option Cluster) (l1 l2 : List Cluster)
    (cluster : String) :
    findClusterFrom acc (l1 ++ l2) cluster =
      findClusterFrom (findClusterFrom acc l1 cluster) l2 cluster := by
  induction l1 generalizing acc with
  | nil => rfl
  | cons cx rest ih =>
      simp only [List.cons_append, findClusterFrom]
      exact ih _

theorem findCluster_none (cs : List Cluster) (cluster : String)
    (h : ∀ cx ∈ cs, cx.name ≠ cluster) : findCluster cs cluster = none :=
  findClusterFrom_no_match none cs cluster h

theorem findCluster_last (l1 l2 : List Cluster) (cl : Cluster) (cluster : String)
    (hname : cl.name = cluster) (h2 : ∀ cx ∈ l2, cx.name ≠ cluster) :
    findCluster (l1 ++ cl :: l2) cluster = some cl := by
  unfold findCluster
  rw [findClusterFrom_append]
  simp only [findClusterFrom, if_pos hname]
  exact findClusterFrom_no_match _ _ _ h2

/-! ### Structure of `toSaramaConfig` results -/

theorem tlsDefaultBranch_ok (env : Env) (t : TLS) (c c' : SaramaConfig)
    (h : tlsDefaultBranch env t c = Except.ok c') :
    c'.version = c.version ∧ c'.netSASLEnable = c.netSASLEnable ∧
    c'.netSASLUser = c.netSASLUser ∧ c'.netSASLPassword = c.netSASLPassword ∧
    c'.netTLSEnable = true := by
  simp only [tlsDefaultBranch] at h
  repeat' split at h
  all_goals first
    | exact Except.noConfusion h
    | (injection h with h; subst h; exact ⟨rfl, rfl, rfl, rfl, rfl⟩)

theorem saslSslTlsPart_ok (env : Env) (cluster : Cluster)
    (c1 c2 : SaramaConfig) (h : saslSslTlsPart env cluster c1 = Except.ok c2) :
    c2.version = c1.version ∧ c2.netSASLEnable = c1.netSASLEnable ∧
    c2.netSASLUser = c1.netSASLUser ∧ c2.netSASLPassword = c1.netSASLPassword ∧
    c2.netTLSEnable = c1.netTLSEnable := by
  simp only [saslSslTlsPart] at h
  repeat' split at h
  all_goals first
    | exact Except.noConfusion h
    | (injection h with h; subst h; exact ⟨rfl, rfl, rfl, rfl, rfl⟩)

theorem saslSslBranch_ok (env : Env) (cluster : Cluster) (c c' : SaramaConfig)
    (h : saslSslBranch env cluster c = GoResult.ok c') :
    c'.version = c.version ∧ c'.netSASLEnable = c.netSASLEnable ∧
    c'.netSASLUser = c.netSASLUser ∧ c'.netSASLPassword = c.netSASLPassword ∧
    c'.netTLSEnable = true ∧ cluster.sasl.isSome = true := by
  simp only [saslSslBranch] at h
  split at h
  · exact GoResult.noConfusion h
  · rename_i c2 heq
    obtain ⟨h1, h2, h3, h4, h5⟩ := saslSslTlsPart_ok env cluster _ c2 heq
    split at h
    · exact GoResult.noConfusion h
    · rename_i s hs
      split at h
      · injection h with h; subst h; simp_all
      · split at h
        · injection h with h; subst h; simp_all
        · injection h with h; subst h; simp_all

theorem versionStep_ok (env : Env) (cluster : Cluster) (c0 c1 : SaramaConfig)
    (h : versionStep env cluster c0 = Except.ok c1) :
    c1.netSASLEnable = c0.netSASLEnable ∧ c1.netSASLUser = c0.netSASLUser ∧
    c1.netSASLPassword = c0.netSASLPassword ∧
    c1.netTLSEnable = c0.netTLSEnable ∧
    ((cluster.version = "" ∧ c1.version = c0.version) ∨
     (cluster.version ≠ "" ∧
       env.parseKafkaVersion cluster.version = Except.ok c1.version)) := by
  simp only [versionStep] at h
  repeat' split at h
  all_goals first
    | exact Except.noConfusion h
    | (injection h with h; subst h; simp_all)

theorem saslStep_fields (cluster : Cluster) (c1 : SaramaConfig) :
    (saslStep cluster c1).version = c1.version ∧
    (saslStep cluster c1).netTLSEnable = c1.netTLSEnable ∧
    (saslStep cluster c1).netSASLEnable = (cluster.sasl.isSome || c1.netSASLEnable) ∧
    (∀ s, cluster.sasl = some s →
       (saslStep cluster c1).netSASLUser = s.username ∧
       (saslStep cluster c1).netSASLPassword = s.password) := by
  cases hs : cluster.sasl <;> simp [saslStep, hs]

theorem tlsStep_ok (env : Env) (cluster : Cluster) (c2 c3 : SaramaConfig)
    (h : tlsStep env cluster c2 = Except.ok c3) :
    c3.version = c2.version ∧ c3.netSASLEnable = c2.netSASLEnable ∧
    c3.netSASLUser = c2.netSASLUser ∧ c3.netSASLPassword = c2.netSASLPassword ∧
    (c3.netTLSEnable = true ↔
      (c2.netTLSEnable = true ∨
       (cluster.tls.isSome = true ∧ cluster.securityProtocol ≠ "SASL_SSL"))) := by
  simp only [tlsStep] at h
  split at h
  · rename_i t htls
    split at h
    · rename_i hns
      obtain ⟨d1, d2, d3, d4, d5⟩ := tlsDefaultBranch_ok env t c2 c3 h
      simp_all
    · rename_i hns
      injection h with h; subst h
      simp_all
  · rename_i htls
    injection h with h; subst h
    simp_all

/-- C5: toSaramaConfig translates the configuration field by field: when it
returns a configuration, SASL is enabled (with the username and
password) exactly when a SASL section is present; TLS is enabled exactly when
a TLS section is present or the security protocol is `"SASL_SSL"`; and the
protocol version is the parsed version string when that string is non-empty
and the default `V1_1_0_0` otherwise. -/
theorem toSaramaConfig_translation (env : Env) (cluster : Cluster)
    (cfg : SaramaConfig) (h : toSaramaConfig env cluster = GoResult.ok cfg) :
    cfg.netSASLEnable = cluster.sasl.isSome ∧
    (∀ s, cluster.sasl = some s →
       cfg.netSASLUser = s.username ∧ cfg.netSASLPassword = s.password) ∧
    (cfg.netTLSEnable = true ↔
       (cluster.tls.isSome = true ∨ cluster.securityProtocol = "SASL_SSL")) ∧
    (cluster.version = "" → cfg.version = KafkaVersion.V1_1_0_0) ∧
    (cluster.version ≠ "" →
       env.parseKafkaVersion cluster.version = Except.ok cfg.version) := by
  simp only [toSaramaConfig] at h
  split at h
  · exact GoResult.noConfusion h
  · rename_i c1 hv
    split at h
    · exact GoResult.noConfusion h
    · rename_i c3 ht
      obtain ⟨v1, v2, v3, v4, v5⟩ := versionStep_ok env cluster _ c1 hv
      obtain ⟨t1, t2, t3, t4, t5⟩ := tlsStep_ok env cluster _ c3 ht
      obtain ⟨p1, p2, p3, p4⟩ := saslStep_fields cluster c1
      by_cases hssl : cluster.securityProtocol = "SASL_SSL"
      · rw [if_pos hssl] at h
        obtain ⟨s1, s2, s3, s4, s5, s6⟩ := saslSslBranch_ok env cluster c3 cfg h
        refine ⟨?_, ?_, ?_, ?_, ?_⟩
        · rw [s2, t2, p3, s6]
          simp [v1, initialSaramaConfig, newConfig]
        · intro s hs
          obtain ⟨pu, pp⟩ := p4 s hs
          exact ⟨by rw [s3, t3, pu], by rw [s4, t4, pp]⟩
        · exact ⟨fun _ => Or.inr hssl, fun _ => s5⟩
        · intro hver
          rcases v5 with ⟨_, hv0⟩ | ⟨hne, _⟩
          · rw [s1, t1, p1, hv0]; rfl
          · exact absurd hver hne
        · intro hver
          rcases v5 with ⟨heq, _⟩ | ⟨_, hp⟩
          · exact absurd heq hver
          · rw [s1, t1, p1]; exact hp
      · rw [if_neg hssl] at h
        injection h with h; subst h
        refine ⟨?_, ?_, ?_, ?_, ?_⟩
        · rw [t2, p3, v1]
          simp [initialSaramaConfig, newConfig]
        · intro s hs
          obtain ⟨pu, pp⟩ := p4 s hs
          exact ⟨by rw [t3, pu], by rw [t4, pp]⟩
        · rw [t5, p2, v4]
          cases htls : cluster.tls <;>
            simp [htls, hssl, initialSaramaConfig, newConfig]
        · intro hver
          rcases v5 with ⟨_, hv0⟩ | ⟨hne, _⟩
          · rw [t1, p1, hv0]; rfl
          · exact absurd hver hne
        · intro hver
          rcases v5 with ⟨heq, _⟩ | ⟨_, hp⟩
          · exact absurd heq hver
          · rw [t1, p1]; exact hp

/-- Witness for C5: `toSaramaConfig` on a concrete cluster with a SASL
section, no TLS section and an empty version string. -/
theorem toSaramaConfig_translation_witness :
    toSaramaConfig envTrivial clusterPlainSasl = GoResult.ok cfgPlainSasl ∧
    (cfgPlainSasl.netSASLEnable = clusterPlainSasl.sasl.isSome ∧
     (∀ s, clusterPlainSasl.sasl = some s →
        cfgPlainSasl.netSASLUser = s.username ∧
        cfgPlainSasl.netSASLPassword = s.password) ∧
     (cfgPlainSasl.netTLSEnable = true ↔
        (clusterPlainSasl.tls.isSome = true ∨
         clusterPlainSasl.securityProtocol = "SASL_SSL")) ∧
     (clusterPlainSasl.version = "" →
        cfgPlainSasl.version = KafkaVersion.V1_1_0_0) ∧
     (clusterPlainSasl.version ≠ "" →
        envTrivial.parseKafkaVersion clusterPlainSasl.version =
          Except.ok cfgPlainSasl.version)) :=
  ⟨by decide,
   toSaramaConfig_translation envTrivial clusterPlainSasl cfgPlainSasl (by decide)⟩

/-! ### Outcome classification of `toSaramaConfig` -/

theorem versionStep_isError (env : Env) (cluster : Cluster) (c0 : SaramaConfig) :
    exceptIsError (versionStep env cluster c0) = versionParseFails env cluster := by
  by_cases hv : cluster.version = ""
  · simp [versionStep, versionParseFails, hv, exceptIsError]
  · cases hp : env.parseKafkaVersion cluster.version <;>
      simp [versionStep, versionParseFails, hv, hp, exceptIsError]

theorem loadRootCAsWrapped_isError (env : Env) (t : TLS) (tc : TLSClientConfig) :
    exceptIsError (loadRootCAsWrapped env t tc) =
      ((t.cafile != "") && exceptIsError (env.readFile t.cafile)) := by
  by_cases hc : t.cafile = ""
  · simp [loadRootCAsWrapped, hc, exceptIsError]
  · cases hr : env.readFile t.cafile <;>
      simp [loadRootCAsWrapped, hc, hr, exceptIsError]

theorem loadClientCert_isError (env : Env) (t : TLS) (tc : TLSClientConfig) :
    exceptIsError (loadClientCert env t tc) = clientPairFails env t := by
  by_cases hb : t.clientfile ≠ "" ∧ t.clientkeyfile ≠ ""
  · obtain ⟨h1, h2⟩ := hb
    cases hc : env.readFile t.clientfile with
    | error e => simp [loadClientCert, clientPairFails, h1, h2, hc, exceptIsError]
    | ok clientCert =>
        cases hk : env.readFile t.clientkeyfile with
        | error e =>
            simp [loadClientCert, clientPairFails, h1, h2, hc, hk, exceptIsError]
        | ok clientKey =>
            cases hp : env.x509KeyPair clientCert clientKey <;>
              simp [loadClientCert, clientPairFails, h1, h2, hc, hk, hp,
                    exceptIsError]
  · rw [Decidable.not_and_iff_or_not] at hb
    rcases hb with hb | hb <;> rw [not_ne_iff] at hb <;>
      simp [loadClientCert, clientPairFails, hb, exceptIsError]

theorem tlsDefaultBranch_isError (env : Env) (t : TLS) (c : SaramaConfig) :
    exceptIsError (tlsDefaultBranch env t c) = defaultTLSFails env t := by
  simp only [tlsDefaultBranch, defaultTLSFails]
  rcases hr : loadRootCAsWrapped env t
      { insecureSkipVerify := t.insecure, rootCAs := none,
        certificates := [] } with e | tc1
  · have h1 := loadRootCAsWrapped_isError env t
      { insecureSkipVerify := t.insecure, rootCAs := none, certificates := [] }
    rw [hr] at h1
    simp only [exceptIsError] at h1
    simp [exceptIsError, ← h1]
  · have h1 := loadRootCAsWrapped_isError env t
      { insecureSkipVerify := t.insecure, rootCAs := none, certificates := [] }
    rw [hr] at h1
    simp only [exceptIsError] at h1
    rcases hcc : loadClientCert env t tc1 with e2 | tc2
    · have h2 := loadClientCert_isError env t tc1
      rw [hcc] at h2
      simp only [exceptIsError] at h2
      simp [exceptIsError, hcc, ← h1, ← h2]
    · have h2 := loadClientCert_isError env t tc1
      rw [hcc] at h2
      simp only [exceptIsError] at h2
      simp [exceptIsError, hcc, ← h1, ← h2]

theorem saslSslTlsPart_isError (env : Env) (cluster : Cluster)
    (c1 : SaramaConfig) :
    exceptIsError (saslSslTlsPart env cluster c1) =
      saslSslCaFails env cluster := by
  cases htls : cluster.tls with
  | none => simp [saslSslTlsPart, saslSslCaFails, htls, exceptIsError]
  | some t =>
      by_cases hc : t.cafile = ""
      · simp [saslSslTlsPart, saslSslCaFails, htls, hc, exceptIsError]
      · cases hr : env.readFile t.cafile <;>
          simp [saslSslTlsPart, saslSslCaFails, htls, hc, hr, exceptIsError]

theorem tlsStep_isError (env : Env) (cluster : Cluster) (c2 : SaramaConfig) :
    exceptIsError (tlsStep env cluster c2) =
      (match cluster.tls with
       | some t => (cluster.securityProtocol != "SASL_SSL") && defaultTLSFails env t
       | none => false) := by
  cases htls : cluster.tls with
  | none => simp [tlsStep, htls, exceptIsError]
  | some t =>
      by_cases hssl : cluster.securityProtocol = "SASL_SSL"
      · simp [tlsStep, htls, hssl, exceptIsError]
      · simp [tlsStep, htls, hssl, tlsDefaultBranch_isError]

theorem saslSslBranch_classify (env : Env) (cluster : Cluster)
    (c : SaramaConfig) :
    (saslSslBranch env cluster c).isErr = saslSslCaFails env cluster ∧
    (saslSslBranch env cluster c).isNilPanic =
      ((!saslSslCaFails env cluster) && cluster.sasl.isNone) := by
  simp only [saslSslBranch]
  rcases hp : saslSslTlsPart env cluster { c with netTLSEnable := true }
      with e | c2
  · have h1 := saslSslTlsPart_isError env cluster { c with netTLSEnable := true }
    rw [hp] at h1
    simp only [exceptIsError] at h1
    simp [GoResult.isErr, GoResult.isNilPanic, ← h1]
  · have h1 := saslSslTlsPart_isError env cluster { c with netTLSEnable := true }
    rw [hp] at h1
    simp only [exceptIsError] at h1
    cases hs : cluster.sasl with
    | none => simp [GoResult.isErr, GoResult.isNilPanic, ← h1, hs]
    | some s =>
        by_cases m512 : s.mechanism = "SCRAM-SHA-512"
        · simp [GoResult.isErr, GoResult.isNilPanic, ← h1, hs, m512]
        · by_cases m256 : s.mechanism = "SCRAM-SHA-256" <;>
            simp [GoResult.isErr, GoResult.isNilPanic, ← h1, hs, m512, m256]

/-- C6 (amended): `toSaramaConfig` returns an error exactly when the version
string is non-empty and fails to parse, or (with a TLS section and a protocol
other than `"SASL_SSL"`) the configured CA file cannot be read or both client
files are configured and reading them or building the key pair fails, or
(with protocol `"SASL_SSL"` and a TLS section) the configured CA file cannot
be read; it crashes on a nil dereference exactly when those steps succeed,
the protocol is `"SASL_SSL"` and the SASL section is absent; on every other
record it returns a configuration. -/
theorem GoResult.isOk_eq (r : GoResult α) :
    r.isOk = (!r.isErr && !r.isNilPanic) := by
  cases r <;> rfl

theorem toSaramaConfig_outcomes (env : Env) (cl : Cluster) :
    (toSaramaConfig env cl).isErr = amendedErrCond env cl ∧
    (toSaramaConfig env cl).isNilPanic = amendedPanicCond env cl ∧
    ((toSaramaConfig env cl).isOk =
      (!amendedErrCond env cl && !amendedPanicCond env cl)) := by
  simp only [toSaramaConfig]
  have hvf := versionStep_isError env cl initialSaramaConfig
  rcases hv : versionStep env cl initialSaramaConfig with e | c1
  · rw [hv] at hvf
    simp only [exceptIsError] at hvf
    simp only [amendedErrCond, amendedPanicCond]
    rw [← hvf]
    simp [hv, GoResult.isErr, GoResult.isNilPanic, GoResult.isOk]
  · rw [hv] at hvf
    simp only [exceptIsError] at hvf
    have htf := tlsStep_isError env cl (saslStep cl c1)
    rcases ht : tlsStep env cl (saslStep cl c1) with e2 | c3
    · rw [ht] at htf
      simp only [exceptIsError] at htf
      have hnossl : (cl.securityProtocol == "SASL_SSL") = false := by
        cases htls : cl.tls with
        | none => rw [htls] at htf; exact absurd htf.symm (by simp)
        | some t =>
            rw [htls] at htf
            have hb := (Bool.and_eq_true _ _).mp htf.symm
            have hne : cl.securityProtocol ≠ "SASL_SSL" := by simpa using hb.1
            simp [hne]
      simp only [amendedErrCond, amendedPanicCond]
      rw [← hvf, ← htf]
      simp [hv, ht, hnossl, GoResult.isErr, GoResult.isNilPanic, GoResult.isOk]
    · rw [ht] at htf
      simp only [exceptIsError] at htf
      by_cases hssl : cl.securityProtocol = "SASL_SSL"
      · obtain ⟨hce, hcp⟩ := saslSslBranch_classify env cl c3
        simp only [amendedErrCond, amendedPanicCond]
        rw [← hvf, ← htf]
        simp [hv, ht, GoResult.isOk_eq, hssl, hce, hcp]
      · simp only [amendedErrCond, amendedPanicCond]
        rw [← hvf, ← htf]
        simp [hv, ht, hssl, GoResult.isErr, GoResult.isNilPanic, GoResult.isOk]

/-- C6 counterexample: a cluster whose TLS section configures only an
(unreadable) client-certificate file, with no key file.  The claim calls this
an error; the code never reads the file and succeeds. -/
theorem toSaramaConfig_claimed_error_refuted :
    claimedErrCond envTrivial clusterClientfileOnly = true ∧
    (toSaramaConfig envTrivial clusterClientfileOnly).isErr = false ∧
    (toSaramaConfig envTrivial clusterClientfileOnly).isOk = true := by
  decide

/-- C8: a cluster record with security protocol `"SASL_SSL"` and no SASL
section drives `toSaramaConfig` into the nil dereference of
`cluster.SASL.Mechanism`, for every environment. -/
theorem toSaramaConfig_nil_sasl_deref (env : Env) :
    toSaramaConfig env clusterSaslSslNoSasl = GoResult.nilPanic := rfl

/-! ### Provenance of errors returned by `toSaramaConfig` -/

theorem versionStep_error (env : Env) (cluster : Cluster) (c0 : SaramaConfig)
    (e : GoError) (h : versionStep env cluster c0 = Except.error e) :
    ∃ u, env.parseKafkaVersion cluster.version = Except.error u ∧
      e = GoError.errorf "Unable to parse Kafka version: " u := by
  simp only [versionStep] at h
  split at h
  · cases hp : env.parseKafkaVersion cluster.version with
    | error u =>
        rw [hp] at h
        injection h with h
        exact ⟨u, rfl, h.symm⟩
    | ok v => rw [hp] at h; exact Except.noConfusion h
  · exact Except.noConfusion h

theorem loadRootCAsWrapped_error (env : Env) (t : TLS) (tc : TLSClientConfig)
    (e : GoError) (h : loadRootCAsWrapped env t tc = Except.error e) :
    ∃ u, env.readFile t.cafile = Except.error u ∧
      e = GoError.errorf "Unable to read Cafile :" u := by
  simp only [loadRootCAsWrapped] at h
  split at h
  · cases hr : env.readFile t.cafile with
    | error u =>
        rw [hr] at h
        injection h with h
        exact ⟨u, rfl, h.symm⟩
    | ok ca => rw [hr] at h; exact Except.noConfusion h
  · exact Except.noConfusion h

theorem loadClientCert_error (env : Env) (t : TLS) (tc : TLSClientConfig)
    (e : GoError) (h : loadClientCert env t tc = Except.error e) :
    ∃ u, envProducedError env u ∧
      (e = GoError.errorf "Unable to read Clientfile :" u ∨
       e = GoError.errorf "Unable to read Clientkeyfile :" u ∨
       e = GoError.errorf "Unable to creatre KeyPair: " u) := by
  simp only [loadClientCert] at h
  split at h
  · cases h1 : env.readFile t.clientfile with
    | error u =>
        rw [h1] at h
        injection h with h
        exact ⟨u, Or.inr (Or.inl ⟨t.clientfile, h1⟩), Or.inl h.symm⟩
    | ok clientCert =>
        simp only [h1] at h
        cases h2 : env.readFile t.clientkeyfile with
        | error u =>
            rw [h2] at h
            injection h with h
            exact ⟨u, Or.inr (Or.inl ⟨t.clientkeyfile, h2⟩),
                   Or.inr (Or.inl h.symm)⟩
        | ok clientKey =>
            simp only [h2] at h
            cases h3 : env.x509KeyPair clientCert clientKey with
            | error u =>
                rw [h3] at h
                injection h with h
                exact ⟨u, Or.inr (Or.inr ⟨clientCert, clientKey, h3⟩),
                       Or.inr (Or.inr h.symm)⟩
            | ok cert => rw [h3] at h; exact Except.noConfusion h
  · exact Except.noConfusion h

theorem tlsDefaultBranch_error (env : Env) (t : TLS) (c : SaramaConfig)
    (e : GoError) (h : tlsDefaultBranch env t c = Except.error e) :
    ∃ u, envProducedError env u ∧
      (e = GoError.errorf "Unable to read Cafile :" u ∨
       e = GoError.errorf "Unable to read Clientfile :" u ∨
       e = GoError.errorf "Unable to read Clientkeyfile :" u ∨
       e = GoError.errorf "Unable to creatre KeyPair: " u) := by
  simp only [tlsDefaultBranch] at h
  split at h
  · rename_i e1 heq
    injection h with h
    subst h
    obtain ⟨u, hu, he⟩ := loadRootCAsWrapped_error env t _ _ heq
    exact ⟨u, Or.inr (Or.inl ⟨t.cafile, hu⟩), Or.inl he⟩
  · rename_i tc1 heq
    split at h
    · rename_i e2 heq2
      injection h with h
      subst h
      obtain ⟨u, hu, he⟩ := loadClientCert_error env t _ _ heq2
      exact ⟨u, hu, Or.inr he⟩
    · exact Except.noConfusion h

theorem tlsStep_error (env : Env) (cluster : Cluster) (c2 : SaramaConfig)
    (e : GoError) (h : tlsStep env cluster c2 = Except.error e) :
    ∃ u, envProducedError env u ∧
      (e = GoError.errorf "Unable to read Cafile :" u ∨
       e = GoError.errorf "Unable to read Clientfile :" u ∨
       e = GoError.errorf "Unable to read Clientkeyfile :" u ∨
       e = GoError.errorf "Unable to creatre KeyPair: " u) := by
  simp only [tlsStep] at h
  split at h
  · split at h
    · exact tlsDefaultBranch_error env _ _ _ h
    · exact Except.noConfusion h
  · exact Except.noConfusion h

theorem saslSslTlsPart_error (env : Env) (cluster : Cluster)
    (c1 : SaramaConfig) (e : GoError)
    (h : saslSslTlsPart env cluster c1 = Except.error e) :
    ∃ p, env.readFile p = Except.error e := by
  simp only [saslSslTlsPart] at h
  split at h
  · rename_i t _
    split at h
    · cases hr : env.readFile t.cafile with
      | error u =>
          rw [hr] at h
          injection h with h
          exact ⟨t.cafile, by rw [hr, h]⟩
      | ok ca => rw [hr] at h; exact Except.noConfusion h
    · exact Except.noConfusion h
  · exact Except.noConfusion h

theorem saslSslBranch_error (env : Env) (cluster : Cluster) (c : SaramaConfig)
    (e : GoError) (h : saslSslBranch env cluster c = GoResult.err e) :
    ∃ p, env.readFile p = Except.error e := by
  simp only [saslSslBranch] at h
  split at h
  · rename_i e1 heq
    injection h with h
    subst h
    exact saslSslTlsPart_error env cluster _ _ heq
  · split at h
    · exact GoResult.noConfusion h
    · split at h
      · exact GoResult.noConfusion h
      · split at h
        · exact GoResult.noConfusion h
        · exact GoResult.noConfusion h

/-- C3 (amended): every error `toSaramaConfig` returns is either an error
value produced by one of the environment calls, surfaced verbatim, or such
an error wrapped exactly once with one of the five fixed message prefixes of
conn.go. -/
theorem toSaramaConfig_error_provenance (env : Env) (cl : Cluster)
    (e : GoError) (h : toSaramaConfig env cl = GoResult.err e) :
    envProducedError env e ∨
    ∃ u, envProducedError env u ∧
      (e = GoError.errorf "Unable to parse Kafka version: " u ∨
       e = GoError.errorf "Unable to read Cafile :" u ∨
       e = GoError.errorf "Unable to read Clientfile :" u ∨
       e = GoError.errorf "Unable to read Clientkeyfile :" u ∨
       e = GoError.errorf "Unable to creatre KeyPair: " u) := by
  simp only [toSaramaConfig] at h
  split at h
  · rename_i e1 heq
    injection h with h
    subst h
    obtain ⟨u, hu, he⟩ := versionStep_error env cl _ _ heq
    exact Or.inr ⟨u, Or.inl ⟨cl.version, hu⟩, Or.inl he⟩
  · rename_i c1 heq
    split at h
    · rename_i e2 heq2
      injection h with h
      subst h
      obtain ⟨u, hu, he⟩ := tlsStep_error env cl _ _ heq2
      exact Or.inr ⟨u, hu, Or.inr he⟩
    · rename_i c3 heq3
      split at h
      · obtain ⟨p, hp⟩ := saslSslBranch_error env cl c3 e h
        exact Or.inl (Or.inr (Or.inl ⟨p, hp⟩))
      · exact GoResult.noConfusion h

/-- Witness for the amended C3 at a cluster whose version string fails to
parse: the returned error wraps the parse error with the fixed prefix. -/
theorem toSaramaConfig_error_provenance_witness :
    toSaramaConfig envTrivial clusterVersionBad =
      GoResult.err (GoError.errorf "Unable to parse Kafka version: "
        (GoError.lib "parse fail")) ∧
    (envProducedError envTrivial
       (GoError.errorf "Unable to parse Kafka version: " (GoError.lib "parse fail")) ∨
     ∃ u, envProducedError envTrivial u ∧
       (GoError.errorf "Unable to parse Kafka version: " (GoError.lib "parse fail") =
          GoError.errorf "Unable to parse Kafka version: " u ∨
        GoError.errorf "Unable to parse Kafka version: " (GoError.lib "parse fail") =
          GoError.errorf "Unable to read Cafile :" u ∨
        GoError.errorf "Unable to parse Kafka version: " (GoError.lib "parse fail") =
          GoError.errorf "Unable to read Clientfile :" u ∨
        GoError.errorf "Unable to parse Kafka version: " (GoError.lib "parse fail") =
          GoError.errorf "Unable to read Clientkeyfile :" u ∨
        GoError.errorf "Unable to parse Kafka version: " (GoError.lib "parse fail") =
          GoError.errorf "Unable to creatre KeyPair: " u)) :=
  ⟨by decide,
   toSaramaConfig_error_provenance envTrivial clusterVersionBad
     (GoError.errorf "Unable to parse Kafka version: " (GoError.lib "parse fail"))
     (by decide)⟩

/-- C3 counterexample: the version-parse failure is returned wrapped with a
message prefix, not verbatim. -/
theorem toSaramaConfig_error_not_verbatim :
    toSaramaConfig envTrivial clusterVersionBad =
      GoResult.err (GoError.errorf "Unable to parse Kafka version: "
        (GoError.lib "parse fail")) ∧
    GoError.errorf "Unable to parse Kafka version: " (GoError.lib "parse fail") ≠
      GoError.lib "parse fail" := by
  decide

/-! ### The connection cache -/

/-- C1: the cache holds at most one connection per name, created on first
use.  A cached name is answered from the cache with the manager unchanged;
a successful `GetClient` (or `GetAdminClient`) on an uncached name stores the
new connection under that name; and afterwards `GetClient` with the same name
returns the stored connection, under any environment whatsoever (so the
configuration is not consulted and no connection is created), leaving the
cache unchanged. -/
theorem connection_cache_once (env envLater : Env) (c : ConnManager)
    (cluster : String) :
    (∀ cl, mapLookup c.conns cluster = some cl →
       GetClient env c cluster = (GoResult.ok cl, c)) ∧
    (∀ r c', GetClient env c cluster = (GoResult.ok r, c') →
       mapLookup c'.conns cluster = some r ∧
       GetClient envLater c' cluster = (GoResult.ok r, c')) ∧
    (∀ a c', GetAdminClient env c cluster = (GoResult.ok a, c') →
       ∃ r, mapLookup c'.conns cluster = some r ∧
         GetClient envLater c' cluster = (GoResult.ok r, c')) := by
  refine ⟨?_, ?_, ?_⟩
  · intro cl hc
    simp [GetClient, hc]
  · intro r c' h
    cases hc : mapLookup c.conns cluster with
    | some cl =>
        simp only [GetClient, hc] at h
        injection h with h1 h2
        injection h1 with h1
        subst h1; subst h2
        exact ⟨hc, by simp [GetClient, hc]⟩
    | none =>
        simp only [GetClient, hc] at h
        split at h
        · exact absurd h (by simp)
        · split at h
          · exact absurd h (by simp)
          · simp only [connectCluster] at h
            split at h
            · exact absurd h (by simp)
            · exact absurd h (by simp)
            · split at h
              · exact absurd h (by simp)
              · injection h with h1 h2
                injection h1 with h1
                subst h1; subst h2
                constructor
                · simp [mapLookup_mapInsert]
                · simp [GetClient, mapLookup_mapInsert]
  · intro a c' h
    cases hc : mapLookup c.conns cluster with
    | some cl =>
        simp only [GetAdminClient, hc] at h
        injection h with h1 h2
        subst h2
        exact ⟨cl, hc, by simp [GetClient, hc]⟩
    | none =>
        simp only [GetAdminClient, hc] at h
        split at h
        · exact absurd h (by simp)
        · simp only [adminFromCluster] at h
          split at h
          · exact absurd h (by simp)
          · exact absurd h (by simp)
          · split at h
            · exact absurd h (by simp)
            · rename_i client hclient
              injection h with h1 h2
              subst h2
              refine ⟨client, by simp [mapLookup_mapInsert], ?_⟩
              simp [GetClient, mapLookup_mapInsert]

/-- Witness for C1: connecting to `"prod"` in a working environment stores
the client under `"prod"`, and a later `GetClient` in an environment whose
configuration loading fails still returns it unchanged. -/
theorem connection_cache_once_witness :
    GetClient envConnect NewConnManager "prod" = (GoResult.ok 7, cmProd) ∧
    (mapLookup cmProd.conns "prod" = some 7 ∧
     GetClient envTrivial cmProd "prod" = (GoResult.ok 7, cmProd)) :=
  ⟨by decide,
   (connection_cache_once envConnect envTrivial NewConnManager "prod").2.1
     7 cmProd (by decide)⟩

/-- C4: on a cache miss, `GetClient` resolves the name against the loaded
configuration: if no cluster carries the name it returns the
`Cluster "<name>" not found.` error and leaves the manager unchanged; if
clusters carry the name, the last such cluster is the one the connection is
built from. -/
theorem getClient_resolution (env : Env) (c : ConnManager) (cluster : String)
    (configTotal : Config)
    (hmiss : mapLookup c.conns cluster = none)
    (hcfg : env.readConfig = Except.ok configTotal) :
    ((∀ cx ∈ configTotal.clusters, cx.name ≠ cluster) →
       GetClient env c cluster =
         (GoResult.err (GoError.msg ("Cluster \"" ++ cluster ++ "\" not found.")),
          c)) ∧
    (∀ l1 cl l2, configTotal.clusters = l1 ++ cl :: l2 → cl.name = cluster →
       (∀ cx ∈ l2, cx.name ≠ cluster) →
       GetClient env c cluster = connectCluster env c cluster cl) := by
  constructor
  · intro hnone
    have hf := findCluster_none configTotal.clusters cluster hnone
    simp [GetClient, hmiss, hcfg, hf]
  · intro l1 cl l2 hsplit hname h2
    have hf : findCluster configTotal.clusters cluster = some cl := by
      rw [hsplit]
      exact findCluster_last l1 l2 cl cluster hname h2
    simp [GetClient, hmiss, hcfg, hf]

/-- Witness for C4: looking up the unknown name `"ghost"` fails with the
not-found error naming it. -/
theorem getClient_resolution_witness :
    GetClient envConnect NewConnManager "ghost" =
      (GoResult.err (GoError.msg ("Cluster \"" ++ "ghost" ++ "\" not found.")),
       NewConnManager) :=
  (getClient_resolution envConnect NewConnManager "ghost" configW
    (by decide) rfl).1 (by decide)

/-- C7: `GetConfig` and `GetAdminClient` never fail on an unknown name: when
the requested name is empty or matches no cluster, they resolve to the
active cluster of the configuration and proceed with it. -/
theorem fallback_to_active (env : Env) (cluster : String) (configTotal : Config)
    (hcfg : env.readConfig = Except.ok configTotal)
    (hmiss : cluster = "" ∨ (∀ cx ∈ configTotal.clusters, cx.name ≠ cluster)) :
    resolveCluster configTotal cluster = configTotal.active ∧
    GetConfig env cluster = toSaramaConfig env configTotal.active ∧
    (∀ c : ConnManager, mapLookup c.conns cluster = none →
       GetAdminClient env c cluster =
         adminFromCluster env c cluster configTotal.active) := by
  have hres : resolveCluster configTotal cluster = configTotal.active := by
    rcases hmiss with he | hn
    · simp [resolveCluster, he]
    · by_cases he : cluster = ""
      · simp [resolveCluster, he]
      · simp [resolveCluster, he, findCluster_none _ _ hn]
  refine ⟨hres, ?_, ?_⟩
  · simp [GetConfig, hcfg, hres]
  · intro c hm
    simp [GetAdminClient, hm, hcfg, hres]

/-- Witness for C7 at the unknown name `"ghost"`: resolution falls back to
the active cluster. -/
theorem fallback_to_active_witness :
    resolveCluster configW "ghost" = configW.active ∧
    GetConfig envConnect "ghost" = toSaramaConfig envConnect configW.active ∧
    (∀ c : ConnManager, mapLookup c.conns "ghost" = none →
       GetAdminClient envConnect c "ghost" =
         adminFromCluster envConnect c "ghost" configW.active) :=
  fallback_to_active envConnect "ghost" configW rfl (Or.inr (by decide))

/-! ### Cache discipline on errors -/

theorem GetClient_state (env : Env) (c : ConnManager) (cluster : String) :
    (GetClient env c cluster).2 = c ∨
    (∃ r, (GetClient env c cluster).1 = GoResult.ok r ∧
       mapLookup c.conns cluster = none ∧
       (GetClient env c cluster).2.conns = mapInsert c.conns cluster r) := by
  cases hc : mapLookup c.conns cluster with
  | some cl => simp [GetClient, hc]
  | none =>
      simp only [GetClient, hc]
      split
      · exact Or.inl rfl
      · split
        · exact Or.inl rfl
        · simp only [connectCluster]
          split
          · exact Or.inl rfl
          · exact Or.inl rfl
          · split
            · exact Or.inl rfl
            · rename_i client hclient
              exact Or.inr ⟨client, rfl, trivial, rfl⟩

theorem GetAdminClient_state (env : Env) (c : ConnManager) (cluster : String) :
    (GetAdminClient env c cluster).2 = c ∨
    (∃ client, mapLookup c.conns cluster = none ∧
       (GetAdminClient env c cluster).2.conns = mapInsert c.conns cluster client ∧
       (GetAdminClient env c cluster).1 =
         ofExcept (env.newClusterAdminFromClient client)) := by
  cases hc : mapLookup c.conns cluster with
  | some cl => simp [GetAdminClient, hc]
  | none =>
      simp only [GetAdminClient, hc]
      split
      · exact Or.inl rfl
      · simp only [adminFromCluster]
        split
        · exact Or.inl rfl
        · exact Or.inl rfl
        · split
          · exact Or.inl rfl
          · rename_i client hclient
            exact Or.inr ⟨client, trivial, rfl, rfl⟩

/-- C9 (amended): `GetClient` leaves the cache unchanged whenever it returns
an error.  `GetAdminClient` leaves it unchanged on every error except when
building the admin handle from a freshly created client fails, in which case
the new entry for the requested name remains in the cache.  No call removes
or overwrites an existing entry. -/
theorem cache_update_discipline (env : Env) (c : ConnManager)
    (cluster : String) :
    (∀ e, (GetClient env c cluster).1 = GoResult.err e →
       (GetClient env c cluster).2 = c) ∧
    (∀ e, (GetAdminClient env c cluster).1 = GoResult.err e →
       ((GetAdminClient env c cluster).2 = c ∨
        ∃ client, env.newClusterAdminFromClient client = Except.error e ∧
          mapLookup c.conns cluster = none ∧
          (GetAdminClient env c cluster).2.conns =
            mapInsert c.conns cluster client)) ∧
    (∀ k v, mapLookup c.conns k = some v →
       mapLookup (GetClient env c cluster).2.conns k = some v ∧
       mapLookup (GetAdminClient env c cluster).2.conns k = some v) := by
  refine ⟨?_, ?_, ?_⟩
  · intro e he
    rcases GetClient_state env c cluster with hs | ⟨r, hr, _, _⟩
    · exact hs
    · rw [he] at hr; exact GoResult.noConfusion hr
  · intro e he
    rcases GetAdminClient_state env c cluster with hs | ⟨client, hn, hconns, hres⟩
    · exact Or.inl hs
    · rw [he] at hres
      cases ha : env.newClusterAdminFromClient client with
      | error e' =>
          rw [ha] at hres
          injection hres with hres
          exact Or.inr ⟨client, by rw [ha, hres], hn, hconns⟩
      | ok a => rw [ha] at hres; exact GoResult.noConfusion hres
  · intro k v hk
    constructor
    · rcases GetClient_state env c cluster with hs | ⟨r, _, hn, hconns⟩
      · rw [hs]; exact hk
      · rw [hconns, mapLookup_mapInsert]
        split_ifs with hkk
        · rw [← hkk] at hk; rw [hk] at hn; exact Option.noConfusion hn
        · exact hk
    · rcases GetAdminClient_state env c cluster with hs | ⟨client, hn, hconns, _⟩
      · rw [hs]; exact hk
      · rw [hconns, mapLookup_mapInsert]
        split_ifs with hkk
        · rw [← hkk] at hk; rw [hk] at hn; exact Option.noConfusion hn
        · exact hk

/-- Witness for the amended C9: a failing configuration load leaves the
empty cache untouched. -/
theorem cache_update_discipline_witness :
    (GetClient envTrivial NewConnManager "prod").1 =
      GoResult.err (GoError.lib "no config") ∧
    (GetClient envTrivial NewConnManager "prod").2 = NewConnManager :=
  ⟨by decide,
   (cache_update_discipline envTrivial NewConnManager "prod").1
     (GoError.lib "no config") (by decide)⟩

/-- C9 counterexample: when the freshly opened client is cached and the admin
handle then fails, `GetAdminClient` returns an error yet the cache has gained
the entry, so the cache is not "exactly as it was before the call". -/
theorem getAdminClient_error_caches_entry :
    GetAdminClient envAdminFail NewConnManager "prod" =
      (GoResult.err (GoError.lib "controller unavailable"), cmProd) ∧
    NewConnManager.conns = [] ∧ cmProd.conns ≠ [] := by
  decide

/-! ### The offset retry -/

/-- C2 (amended): `GetAvailableOffsets` returns a successful first attempt
directly; on a failed first attempt it closes the broker and re-resolves the
configuration — if that fails, its error is returned with no second RPC —
and otherwise reopens the broker and returns the result of the second attempt;
in every case at most two RPC attempts are made. -/
theorem getAvailableOffsets_retry (env : Env) (cluster : String)
    (attempt : Nat → Except GoError OffsetResponse) :
    (∀ r, attempt 0 = Except.ok r →
       GetAvailableOffsets env cluster attempt =
         (GoResult.ok r, [BrokerEvent.rpcAttempt 0])) ∧
    (∀ e0, attempt 0 = Except.error e0 →
       (∀ e, GetConfig env cluster = GoResult.err e →
          GetAvailableOffsets env cluster attempt =
            (GoResult.err e, [BrokerEvent.rpcAttempt 0, BrokerEvent.close])) ∧
       (∀ cfg, GetConfig env cluster = GoResult.ok cfg →
          GetAvailableOffsets env cluster attempt =
            (ofExcept (attempt 1),
             [BrokerEvent.rpcAttempt 0, BrokerEvent.close,
              BrokerEvent.openBroker cfg, BrokerEvent.rpcAttempt 1]))) ∧
    countRpcAttempts (GetAvailableOffsets env cluster attempt).2 ≤ 2 := by
  refine ⟨?_, ?_, ?_⟩
  · intro r hr
    simp [GetAvailableOffsets, hr]
  · intro e0 h0
    constructor
    · intro e hge
      simp [GetAvailableOffsets, h0, hge]
    · intro cfg hgc
      simp [GetAvailableOffsets, h0, hgc]
  · simp only [GetAvailableOffsets]
    split
    · simp [countRpcAttempts]
    · split <;> simp [countRpcAttempts]

/-- Witness for the amended C2: a successful first attempt is returned with a
single RPC event. -/
theorem getAvailableOffsets_retry_witness :
    attemptOk 0 = Except.ok 42 ∧
    GetAvailableOffsets envTrivial "prod" attemptOk =
      (GoResult.ok 42, [BrokerEvent.rpcAttempt 0]) :=
  ⟨rfl, (getAvailableOffsets_retry envTrivial "prod" attemptOk).1 42 rfl⟩

/-- C2 counterexample: when the first attempt fails and the configuration
cannot be re-resolved, the RPC is not retried — the broker is closed, no
reopen happens, only one attempt is made, and the configuration error (not a
result of a second attempt) is returned. -/
theorem getAvailableOffsets_no_retry_on_config_failure :
    attemptFail 0 = Except.error (GoError.lib "rpc failed") ∧
    GetAvailableOffsets envTrivial "prod" attemptFail =
      (GoResult.err (GoError.lib "no config"),
       [BrokerEvent.rpcAttempt 0, BrokerEvent.close]) ∧
    countRpcAttempts (GetAvailableOffsets envTrivial "prod" attemptFail).2 = 1 :=
  ⟨rfl, by decide, rfl⟩

end KafConn
